import Mathlib

/-!
Verification development for the CANopen Object Dictionary artifact in this
repository.  The repository ships a single generated declaration header,
src/python_port/data/samples/demo_device.h, declaring `OD_1000 : uint32_t`,
`OD_1001 : uint8_t` and the PDO mapping record type `OD_1600_t`.  The runtime
(entry store, access controller, mapping validator and dispatcher) described
by the specification is not part of the repository, so those components are
modelled here from the specification text; the header is embedded directly.
-/

namespace CANopenOD

/-- Modelled from the spec: the error taxonomy of the absent runtime
(section 7 of the specification).  The specification's step 1 of
`validate_and_install` rejects a candidate with more than 8 mapped objects
without naming an error kind; the dedicated constructor `TooManyMapped`
stands for that unnamed rejection reason. -/
inductive ErrorKind where
  | NotFound
  | AccessDenied
  | TypeMismatch
  | RangeViolation
  | UnknownEntry
  | NotMappable
  | SizeMismatch
  | FrameOverflow
  | Busy
  | TooManyMapped
  deriving DecidableEq

/-- Modelled from the spec: per-entry access attribute
(read-only / write-only / read-write) of the absent Entry Store. -/
inductive Access where
  | readOnly
  | writeOnly
  | readWrite
  deriving DecidableEq

/-- Modelled from the spec: storage class (volatile / persistent) of the
absent Entry Store. -/
inductive StorageClass where
  | volatileClass
  | persistentClass
  deriving DecidableEq

/-- Modelled from the spec: calling context of the absent Access Controller
(Local or Network). -/
inductive Context where
  | Local
  | Network
  deriving DecidableEq

/-- Modelled from the spec: device mode state machine
`PreOperational -> Operational -> Stopped` gating mapping mutation; the
NMT layer that drives transitions is out of scope. -/
inductive DeviceMode where
  | PreOperational
  | Operational
  | Stopped
  deriving DecidableEq

/-- Modelled from the spec: a dictionary entry of the absent Entry Store.
`size` is the declared storage width in bytes, `value` its current raw
bytes (little-endian), `bounds` the optional declared min/max range on the
value read as a little-endian integer. -/
structure Entry where
  access : Access
  netWriteProtected : Bool
  size : Nat
  bounds : Option (Nat × Nat)
  mappable : Bool
  storage : StorageClass
  value : List Nat
  deriving DecidableEq

/-- Modelled from the spec: the absent Entry Store, keyed by
(index, subindex); uniqueness of keys is inherent in the function
representation. -/
def EntryStore : Type := Nat → Nat → Option Entry

/-- Little-endian decoding of a byte sequence to a natural number. -/
def leDecode : List Nat → Nat
  | [] => 0
  | b :: rest => b % 256 + 256 * leDecode rest

/-- Low `n` bytes of a value, little-endian. -/
def natToBytes : Nat → Nat → List Nat
  | 0, _ => []
  | n + 1, v => v % 256 :: natToBytes n (v / 256)

/-- Modelled from the spec: the absent Access Controller's write decision.
An entry is read-only from the calling context when its access attribute is
read-only, or when the context is Network and the entry is
write-protected-from-network. -/
def writeAllowed (e : Entry) (ctx : Context) : Bool :=
  match e.access with
  | Access.readOnly => false
  | _ =>
    match ctx with
    | Context.Local => true
    | Context.Network => !e.netWriteProtected

/-- Modelled from the spec: range validation of the absent Access
Controller; when the entry declares min/max bounds, the new value read as a
little-endian integer must lie within them. -/
def rangeOk (e : Entry) (v : List Nat) : Bool :=
  match e.bounds with
  | none => true
  | some (lo, hi) => decide (lo ≤ leDecode v) && decide (leDecode v ≤ hi)

/-- Point update of the store at one (index, subindex) key. -/
def updateStore (s : EntryStore) (i sub : Nat) (e : Entry) : EntryStore :=
  fun i2 sub2 => if i2 = i ∧ sub2 = sub then some e else s i2 sub2

/-- Modelled from the spec: `get(index, subindex) -> value or NotFound` of
the absent Entry Store. -/
def get (s : EntryStore) (i sub : Nat) : Except ErrorKind (List Nat) :=
  match s i sub with
  | none => Except.error ErrorKind.NotFound
  | some e => Except.ok e.value

/-- Modelled from the spec: `set(index, subindex, new_value)` of the absent
Entry Store, the sole mutation path.  It fails with `AccessDenied` when the
entry is read-only from the calling context, `TypeMismatch` when the new
value's shape does not match the declared size, and `RangeViolation` when
declared bounds exclude the new value; otherwise it commits the write. -/
def set (s : EntryStore) (i sub : Nat) (v : List Nat) (ctx : Context) :
    Except ErrorKind EntryStore :=
  match s i sub with
  | none => Except.error ErrorKind.NotFound
  | some e =>
    if writeAllowed e ctx = false then Except.error ErrorKind.AccessDenied
    else if v.length ≠ e.size then Except.error ErrorKind.TypeMismatch
    else if rangeOk e v = false then Except.error ErrorKind.RangeViolation
    else Except.ok (updateStore s i sub { e with value := v })

/-- Modelled from the spec: one mapped-object tuple
(index, subindex, bit_length) of a mapping record. -/
structure MappedObject where
  index : Nat
  subindex : Nat
  bit_length : Nat
  deriving DecidableEq

/-- Modelled from the spec: a PDO mapping record, `mapped_count` bundled
sub-entries drawn in order from `mapped_objects`. -/
structure MappingRecord where
  mapped_count : Nat
  mapped_objects : List MappedObject
  deriving DecidableEq

/-- The mapped sub-entries a record actually bundles: the first
`mapped_count` elements of its ordered sequence. -/
def MappingRecord.effective (r : MappingRecord) : List MappedObject :=
  r.mapped_objects.take r.mapped_count

/-- Modelled from the spec: the absent PDO Mapping Table, one record per
channel. -/
def MappingTable : Type := Nat → MappingRecord

/-- Modelled from the spec: step 2 of `validate_and_install` in the absent
Mapping Validator.  Each mapped sub-entry in order is resolved in the Entry
Store (`UnknownEntry` if absent), must be marked mappable (`NotMappable`
otherwise), and its declared bit length must not exceed the entry's storage
width in bits (`SizeMismatch` otherwise). -/
def checkObjects (s : EntryStore) : List MappedObject → Except ErrorKind Unit
  | [] => Except.ok ()
  | o :: rest =>
    match s o.index o.subindex with
    | none => Except.error ErrorKind.UnknownEntry
    | some e =>
      if e.mappable = false then Except.error ErrorKind.NotMappable
      else if 8 * e.size < o.bit_length then Except.error ErrorKind.SizeMismatch
      else checkObjects s rest

/-- Total bit length of the sub-entries a record bundles. -/
def totalBits (r : MappingRecord) : Nat :=
  (r.effective.map MappedObject.bit_length).sum

/-- Modelled from the spec: `validate_and_install(channel, candidate_record)`
of the absent Mapping Validator, following the specification's numbered
algorithm: (1) reject a candidate with more than 8 mapped objects; (2) check
each mapped sub-entry against the Entry Store; (3) reject with
`FrameOverflow` when the summed bit length exceeds 64; (4) reject with
`Busy` outside the PreOperational device mode, in which alone mapping writes
are allowed; (5) on success atomically swap the channel's record. -/
def validate_and_install (mode : DeviceMode) (s : EntryStore) (t : MappingTable)
    (channel : Nat) (cand : MappingRecord) : Except ErrorKind MappingTable :=
  if 8 < cand.mapped_count then Except.error ErrorKind.TooManyMapped
  else
    match checkObjects s cand.effective with
    | Except.error e => Except.error e
    | Except.ok _ =>
      if 64 < totalBits cand then Except.error ErrorKind.FrameOverflow
      else if mode = DeviceMode.PreOperational then
        Except.ok (fun ch => if ch = channel then cand else t ch)
      else Except.error ErrorKind.Busy

/-- The mapping table in effect after a `validate_and_install` call: the
newly installed table on success, the previous table on rejection. -/
def applyInstall (t : MappingTable) (r : Except ErrorKind MappingTable) :
    MappingTable :=
  match r with
  | Except.ok t2 => t2
  | Except.error _ => t

/-- Modelled from the spec: the dispatch read of one mapped sub-entry of the
absent Dispatcher, in mapping order: resolve the entry, decode its stored
bytes little-endian and keep the declared `bit_length` low bits. -/
def readFields (s : EntryStore) : List MappedObject → Option (List (Nat × Nat))
  | [] => some []
  | o :: rest =>
    match s o.index o.subindex with
    | none => none
    | some e =>
      match readFields s rest with
      | none => none
      | some vs => some ((leDecode e.value % 2 ^ o.bit_length, o.bit_length) :: vs)

/-- Little-endian bit packing of (value, bit_length) fields, the bit offset
accumulating left-to-right over the list: the first field occupies the
lowest bits. -/
def packValue : List (Nat × Nat) → Nat
  | [] => 0
  | (v, len) :: rest => v % 2 ^ len + 2 ^ len * packValue rest

/-- Total bit length of a field list. -/
def bitsTotal : List (Nat × Nat) → Nat
  | [] => 0
  | (_, len) :: rest => len + bitsTotal rest

/-- Modelled from the spec: the absent Dispatcher's payload assembly for one
channel: read each mapped entry in mapping order, pack little-endian with
the bit offset accumulating left-to-right, and emit enough bytes to hold the
packed bits. -/
def dispatch (s : EntryStore) (r : MappingRecord) : Option (List Nat) :=
  match readFields s r.effective with
  | none => none
  | some fs => some (natToBytes ((bitsTotal fs + 7) / 8) (packValue fs))

/-- Modelled from the spec: overlay of one persisted
(index, subindex, raw bytes) tuple onto the store at restart; a tuple whose
key matches no existing entry is ignored. -/
def applyTuple (s : EntryStore) (i sub : Nat) (raw : List Nat) : EntryStore :=
  match s i sub with
  | none => s
  | some e => updateStore s i sub { e with value := raw }

/-- Modelled from the spec: the restart overlay loop of the absent Entry
Store, applying the persisted tuples in sequence order. -/
def restore (s : EntryStore) : List (Nat × Nat × List Nat) → EntryStore
  | [] => s
  | (i, sub, raw) :: rest => restore (applyTuple s i sub raw) rest

/-- Modelled from the spec: default initialization of the store from the
generated entry definitions. -/
def initStore (defs : List ((Nat × Nat) × Entry)) : EntryStore :=
  fun i sub => (defs.find? (fun p => p.1.1 = i && p.1.2 = sub)).map Prod.snd

/-- Modelled from the spec: restart of the absent Entry Store — defaults
first, then the persisted tuples overlaid in sequence order. -/
def restart (defs : List ((Nat × Nat) × Entry))
    (persisted : List (Nat × Nat × List Nat)) : EntryStore :=
  restore (initStore defs) persisted

/-- The store with no entries. -/
def emptyStore : EntryStore := fun _ _ => none

/-- The initial mapping table: every channel carries the empty record. -/
def initTable : MappingTable := fun _ => { mapped_count := 0, mapped_objects := [] }

/-- The empty mapping record: no mapped objects. -/
def emptyRecord : MappingRecord := { mapped_count := 0, mapped_objects := [] }

/-- A candidate record claiming nine mapped objects, above the capacity of
eight. -/
def bigRecord : MappingRecord := { mapped_count := 9, mapped_objects := [] }

/-- A candidate record bundling a single 65-bit mapped object at
(0x6000, 1); its summed bit length 65 exceeds one CAN frame. -/
def wideUnknown : MappingRecord :=
  { mapped_count := 1,
    mapped_objects := [{ index := 0x6000, subindex := 1, bit_length := 65 }] }

/-- A mappable nine-byte entry, wide enough to back a 65-bit mapped
object. -/
def wideEntry : Entry :=
  { access := Access.readWrite, netWriteProtected := false, size := 9,
    bounds := none, mappable := true, storage := StorageClass.volatileClass,
    value := [0, 0, 0, 0, 0, 0, 0, 0, 0] }

/-- A store holding the single wide mappable entry `wideEntry` at
(0x6000, 1). -/
def wideStore : EntryStore := fun i sub =>
  if i = 0x6000 ∧ sub = 1 then some wideEntry else none

/-- The entry behind `OD_1000` in the generated header: a `uint32_t`
(4 bytes); modelled from the spec as read-only per the concrete scenario of
section 8. -/
def entry1000 : Entry :=
  { access := Access.readOnly, netWriteProtected := true, size := 4,
    bounds := none, mappable := false, storage := StorageClass.persistentClass,
    value := [0, 0, 0, 0] }

/-- The entry behind `OD_1001` in the generated header: a `uint8_t`
(1 byte); modelled from the spec with read-only access. -/
def entry1001 : Entry :=
  { access := Access.readOnly, netWriteProtected := true, size := 1,
    bounds := none, mappable := false, storage := StorageClass.volatileClass,
    value := [0] }

/-- Modelled from the spec: a demo store holding the entries the generated
header declares — (0x1000,0) read-only u32 and (0x1001,0) read-only u8. -/
def demoStore : EntryStore := fun i sub =>
  if i = 0x1000 ∧ sub = 0 then some entry1000
  else if i = 0x1001 ∧ sub = 0 then some entry1001
  else none

/-- A writable one-byte entry with declared bounds 0..100, used to exercise
the write path on concrete inputs. -/
def wEntry : Entry :=
  { access := Access.readWrite, netWriteProtected := false, size := 1,
    bounds := some (0, 100), mappable := true,
    storage := StorageClass.volatileClass, value := [0] }

/-- A store holding the single writable entry `wEntry` at (0x2000, 1). -/
def wStore : EntryStore := fun i sub =>
  if i = 0x2000 ∧ sub = 1 then some wEntry else none

/-- Modelled from the spec: the scenario entry (0x6000, 1) of the absent
Entry Store — a mappable one-byte entry currently holding the byte a. -/
def entry6000sub1 (a : Nat) : Entry :=
  { access := Access.readWrite, netWriteProtected := false, size := 1,
    bounds := none, mappable := true, storage := StorageClass.volatileClass,
    value := [a] }

/-- Modelled from the spec: the scenario entry (0x6000, 2) of the absent
Entry Store — a mappable two-byte entry currently holding the little-endian
bytes b0, b1. -/
def entry6000sub2 (b0 b1 : Nat) : Entry :=
  { access := Access.readWrite, netWriteProtected := false, size := 2,
    bounds := none, mappable := true, storage := StorageClass.volatileClass,
    value := [b0, b1] }

/-- Modelled from the spec: the store of the dispatch scenario, holding the
two mappable entries (0x6000, 1) and (0x6000, 2). -/
def scenarioStore (a b0 b1 : Nat) : EntryStore := fun i sub =>
  if i = 0x6000 ∧ sub = 1 then some (entry6000sub1 a)
  else if i = 0x6000 ∧ sub = 2 then some (entry6000sub2 b0 b1)
  else none

/-- Modelled from the spec: the mapping record of the dispatch scenario for
channel 1 — (0x6000, 1) over 8 bits, then (0x6000, 2) over 16 bits. -/
def scenarioRecord : MappingRecord :=
  { mapped_count := 2,
    mapped_objects :=
      [{ index := 0x6000, subindex := 1, bit_length := 8 },
       { index := 0x6000, subindex := 2, bit_length := 16 }] }

/-- Embedding of the generated artifact src/python_port/data/samples/demo_device.h:
the record type `OD_1600_t`, a `uint8_t Number_of_mapped_objects` field
followed by the two `uint32_t` slots `Mapped_object_1` and
`Mapped_object_2`, each a plain integer value.  Machine integers are
embedded as naturals bounded by the declared width. -/
structure OD_1600_t where
  Number_of_mapped_objects : Nat
  Mapped_object_1 : Nat
  Mapped_object_2 : Nat
  count_lt : Number_of_mapped_objects < 2 ^ 8
  slot1_lt : Mapped_object_1 < 2 ^ 32
  slot2_lt : Mapped_object_2 < 2 ^ 32

/-- The mapped-object slots the `OD_1600_t` record provides, in declaration
order. -/
def OD_1600_t.slots (r : OD_1600_t) : List Nat :=
  [r.Mapped_object_1, r.Mapped_object_2]

/-- Encoding of an `OD_1600_t` record as one 8-bit and two 32-bit machine
integers. -/
def OD_1600_encode (r : OD_1600_t) : Fin (2 ^ 8) × Fin (2 ^ 32) × Fin (2 ^ 32) :=
  (⟨r.Number_of_mapped_objects, r.count_lt⟩,
   ⟨r.Mapped_object_1, r.slot1_lt⟩,
   ⟨r.Mapped_object_2, r.slot2_lt⟩)

/-- Decoding of one 8-bit and two 32-bit machine integers back into an
`OD_1600_t` record. -/
def OD_1600_decode (p : Fin (2 ^ 8) × Fin (2 ^ 32) × Fin (2 ^ 32)) : OD_1600_t :=
  { Number_of_mapped_objects := p.1.val
    Mapped_object_1 := p.2.1.val
    Mapped_object_2 := p.2.2.val
    count_lt := p.1.isLt
    slot1_lt := p.2.1.isLt
    slot2_lt := p.2.2.isLt }

/-- C10: the generated record type `OD_1600_t` consists of exactly one 8-bit
unsigned count field followed by exactly two 32-bit unsigned mapped-object
slots — it is in bijection with one 8-bit and two 32-bit machine integers,
each slot a plain bounded integer value rather than a pointer — and it
provides exactly two mapped-object slots, so it can reference at most two
mapped objects. -/
theorem od1600_layout :
    (∀ r : OD_1600_t, OD_1600_decode (OD_1600_encode r) = r) ∧
    (∀ p : Fin (2 ^ 8) × Fin (2 ^ 32) × Fin (2 ^ 32),
      OD_1600_encode (OD_1600_decode p) = p) ∧
    (∀ r : OD_1600_t, r.slots.length = 2) ∧
    (∀ r : OD_1600_t, r.Number_of_mapped_objects < 2 ^ 8 ∧
      r.Mapped_object_1 < 2 ^ 32 ∧ r.Mapped_object_2 < 2 ^ 32) := by
  refine ⟨?_, ?_, ?_, ?_⟩
  · intro r; cases r; rfl
  · intro p; obtain ⟨⟨a, ha⟩, ⟨b, hb⟩, ⟨c, hc⟩⟩ := p; rfl
  · intro r; rfl
  · intro r; exact ⟨r.count_lt, r.slot1_lt, r.slot2_lt⟩

/-- C2: for every entry present in the store and every writer context
permitted to write it, `set` with a type- and range-valid value followed by
`get` returns exactly the just-written value. -/
theorem set_get_roundtrip (s : EntryStore) (i sub : Nat) (v : List Nat)
    (ctx : Context) (e : Entry) (hfind : s i sub = some e)
    (hperm : writeAllowed e ctx = true) (htype : v.length = e.size)
    (hrange : rangeOk e v = true) :
    ∃ s2, set s i sub v ctx = Except.ok s2 ∧ get s2 i sub = Except.ok v := by
  refine ⟨updateStore s i sub { e with value := v }, ?_, ?_⟩
  · simp [set, hfind, hperm, htype, hrange]
  · simp [get, updateStore]

/-- C2 witness: writing the byte 7 to the writable entry (0x2000,1) of
`wStore` from the Local context succeeds and reads back as 7. -/
theorem set_get_roundtrip_witness :
    ∃ s2, set wStore 0x2000 1 [7] Context.Local = Except.ok s2 ∧
      get s2 0x2000 1 = Except.ok [7] :=
  set_get_roundtrip wStore 0x2000 1 [7] Context.Local wEntry (by rfl)
    (by rfl) (by rfl) (by rfl)

/-- C6: `set` fails with `AccessDenied` when the entry is read-only from
the calling context, with `TypeMismatch` when the entry is writable but the
new value's shape does not match the declared size, and with
`RangeViolation` when the entry is writable, the shape matches, and the
declared bounds exclude the value; in particular every write to the
read-only u32 entry (0x1000, 0) of the demo store from the Local context
returns `AccessDenied`. -/
theorem set_error_taxonomy :
    (∀ (s : EntryStore) (i sub : Nat) (v : List Nat) (ctx : Context) (e : Entry),
      s i sub = some e → writeAllowed e ctx = false →
      set s i sub v ctx = Except.error ErrorKind.AccessDenied) ∧
    (∀ (s : EntryStore) (i sub : Nat) (v : List Nat) (ctx : Context) (e : Entry),
      s i sub = some e → writeAllowed e ctx = true → v.length ≠ e.size →
      set s i sub v ctx = Except.error ErrorKind.TypeMismatch) ∧
    (∀ (s : EntryStore) (i sub : Nat) (v : List Nat) (ctx : Context) (e : Entry),
      s i sub = some e → writeAllowed e ctx = true → v.length = e.size →
      rangeOk e v = false →
      set s i sub v ctx = Except.error ErrorKind.RangeViolation) ∧
    (∀ bytes : List Nat,
      set demoStore 0x1000 0 bytes Context.Local =
        Except.error ErrorKind.AccessDenied) := by
  refine ⟨?_, ?_, ?_, ?_⟩
  · intro s i sub v ctx e hfind hro
    simp [set, hfind, hro]
  · intro s i sub v ctx e hfind hperm hlen
    simp [set, hfind, hperm, hlen]
  · intro s i sub v ctx e hfind hperm hlen hrange
    simp [set, hfind, hperm, hlen, hrange]
  · intro bytes
    simp [set, demoStore, entry1000, writeAllowed]

/-- C6 witness: the write of four zero bytes to (0x1000, 0) of the demo
store from the Local context is denied, obtained from the AccessDenied case
of the taxonomy at that concrete entry. -/
theorem set_error_taxonomy_witness :
    set demoStore 0x1000 0 [0, 0, 0, 0] Context.Local =
      Except.error ErrorKind.AccessDenied :=
  set_error_taxonomy.1 demoStore 0x1000 0 [0, 0, 0, 0] Context.Local
    entry1000 (by rfl) (by rfl)

/-- C1 (amended): for every candidate mapping record that passes the
preceding validation steps — at most 8 mapped objects, and every mapped
object resolving to an existing mappable entry wide enough for its declared
bit length — and whose summed bit length exceeds 64,
`validate_and_install` returns `FrameOverflow` in every device mode, and
the previously active mapping table is unchanged. -/
theorem frameOverflow_rejects (mode : DeviceMode) (s : EntryStore)
    (t : MappingTable) (ch : Nat) (cand : MappingRecord)
    (hcount : cand.mapped_count ≤ 8)
    (hobjs : checkObjects s cand.effective = Except.ok ())
    (hsum : 64 < totalBits cand) :
    validate_and_install mode s t ch cand = Except.error ErrorKind.FrameOverflow ∧
    applyInstall t (validate_and_install mode s t ch cand) = t := by
  have h1 : ¬ 8 < cand.mapped_count := Nat.not_lt.mpr hcount
  constructor
  · simp [validate_and_install, h1, hobjs, hsum]
  · simp [validate_and_install, applyInstall, h1, hobjs, hsum]

/-- C1 counterexample: the candidate `wideUnknown` has summed bit length
65 > 64, yet against the empty store `validate_and_install` returns
`UnknownEntry`, not `FrameOverflow`, because the per-object resolution step
precedes the frame-size accumulation step. -/
theorem frameOverflow_not_universal :
    64 < totalBits wideUnknown ∧
    validate_and_install DeviceMode.PreOperational emptyStore initTable 1
      wideUnknown = Except.error ErrorKind.UnknownEntry ∧
    validate_and_install DeviceMode.PreOperational emptyStore initTable 1
      wideUnknown ≠ Except.error ErrorKind.FrameOverflow := by
  refine ⟨by decide, rfl, fun h => ?_⟩
  have h2 : (Except.error ErrorKind.UnknownEntry : Except ErrorKind MappingTable) =
      Except.error ErrorKind.FrameOverflow := h
  simp at h2

/-- C1 witness: the 65-bit candidate over the wide store passes the
per-object checks, overflows the frame, and is rejected with
`FrameOverflow` leaving the table unchanged. -/
theorem frameOverflow_rejects_witness :
    validate_and_install DeviceMode.PreOperational wideStore initTable 1
      wideUnknown = Except.error ErrorKind.FrameOverflow ∧
    applyInstall initTable (validate_and_install DeviceMode.PreOperational
      wideStore initTable 1 wideUnknown) = initTable :=
  frameOverflow_rejects DeviceMode.PreOperational wideStore initTable 1
    wideUnknown (by decide) (by rfl) (by decide)

/-- C3: `validate_and_install` rejects every candidate record bundling more
than 8 mapped objects, and every record it installs bundles its first
`mapped_count` mapped objects in order with `mapped_count` at most 8, hence
an ordered sequence of at most 8 tuples. -/
theorem mapping_capacity_eight :
    (∀ (mode : DeviceMode) (s : EntryStore) (t : MappingTable) (ch : Nat)
      (cand : MappingRecord), 8 < cand.mapped_count →
      validate_and_install mode s t ch cand =
        Except.error ErrorKind.TooManyMapped) ∧
    (∀ (mode : DeviceMode) (s : EntryStore) (t : MappingTable) (ch : Nat)
      (cand : MappingRecord) (t2 : MappingTable),
      validate_and_install mode s t ch cand = Except.ok t2 →
      t2 ch = cand ∧ cand.mapped_count ≤ 8 ∧ cand.effective.length ≤ 8) := by
  constructor
  · intro mode s t ch cand h
    simp [validate_and_install, h]
  · intro mode s t ch cand t2 h
    simp only [validate_and_install] at h
    split at h
    next => exact absurd h (by simp)
    next hc =>
      split at h
      next => exact absurd h (by simp)
      next =>
        split at h
        next => exact absurd h (by simp)
        next =>
          split at h
          next hmode =>
            injection h with h4
            subst h4
            have h8 : cand.mapped_count ≤ 8 := Nat.not_lt.mp hc
            refine ⟨by simp, h8, ?_⟩
            have h9 : cand.effective.length ≤ cand.mapped_count := by
              simp [MappingRecord.effective, List.length_take]
            omega
          next => exact absurd h (by simp)

/-- C3 witness: the nine-object candidate `bigRecord` is rejected by
`validate_and_install`. -/
theorem mapping_capacity_eight_witness :
    validate_and_install DeviceMode.PreOperational emptyStore initTable 1
      bigRecord = Except.error ErrorKind.TooManyMapped :=
  mapping_capacity_eight.1 DeviceMode.PreOperational emptyStore initTable 1
    bigRecord (by decide)

/-- C4 (amended): in every device mode other than PreOperational,
`validate_and_install` never installs — it returns an error, specifically
`Busy` whenever the candidate passes the structural checks (count, entry
resolution, frame size) — the active mapping table is unchanged, and every
dispatch cycle after the call reads exactly the unchanged old mapping of
every channel, so no torn record is observable. -/
theorem busy_gate_nonpreop (mode : DeviceMode) (s : EntryStore)
    (t : MappingTable) (ch : Nat) (cand : MappingRecord)
    (hmode : mode ≠ DeviceMode.PreOperational) :
    (∃ e, validate_and_install mode s t ch cand = Except.error e) ∧
    applyInstall t (validate_and_install mode s t ch cand) = t ∧
    (cand.mapped_count ≤ 8 → checkObjects s cand.effective = Except.ok () →
      totalBits cand ≤ 64 →
      validate_and_install mode s t ch cand = Except.error ErrorKind.Busy) ∧
    (∀ ch2, dispatch s (applyInstall t
        (validate_and_install mode s t ch cand) ch2) =
      dispatch s (t ch2)) := by
  have herr : ∃ e, validate_and_install mode s t ch cand = Except.error e := by
    unfold validate_and_install
    by_cases h1 : 8 < cand.mapped_count
    · rw [if_pos h1]; exact ⟨_, rfl⟩
    · rw [if_neg h1]
      cases h2 : checkObjects s cand.effective with
      | error e1 => exact ⟨e1, rfl⟩
      | ok u =>
        by_cases h3 : 64 < totalBits cand
        · rw [if_pos h3]; exact ⟨_, rfl⟩
        · rw [if_neg h3, if_neg hmode]; exact ⟨_, rfl⟩
  obtain ⟨e, he⟩ := herr
  refine ⟨⟨e, he⟩, ?_, ?_, ?_⟩
  · rw [he]; rfl
  · intro h1 h2 h3
    have h4 : ¬ 8 < cand.mapped_count := Nat.not_lt.mpr h1
    have h5 : ¬ 64 < totalBits cand := Nat.not_lt.mpr h3
    simp [validate_and_install, h4, h2, h5, hmode]
  · intro ch2
    rw [he]
    rfl

/-- C4 counterexample: in Operational mode the nine-object candidate
`bigRecord` is rejected with `TooManyMapped`, not `Busy` — the structural
checks precede the mode gate. -/
theorem busy_gate_not_universal :
    validate_and_install DeviceMode.Operational emptyStore initTable 1
      bigRecord = Except.error ErrorKind.TooManyMapped ∧
    validate_and_install DeviceMode.Operational emptyStore initTable 1
      bigRecord ≠ Except.error ErrorKind.Busy := by
  refine ⟨rfl, fun h => ?_⟩
  have h2 : (Except.error ErrorKind.TooManyMapped : Except ErrorKind MappingTable) =
      Except.error ErrorKind.Busy := h
  simp at h2

/-- C4 witness: the empty candidate attempted in Operational mode is
rejected (with `Busy`, since it passes the structural checks), the table is
unchanged and dispatch reads the old mapping of every channel. -/
theorem busy_gate_nonpreop_witness :
    (∃ e, validate_and_install DeviceMode.Operational emptyStore initTable 1
      emptyRecord = Except.error e) ∧
    applyInstall initTable (validate_and_install DeviceMode.Operational
      emptyStore initTable 1 emptyRecord) = initTable ∧
    (emptyRecord.mapped_count ≤ 8 →
      checkObjects emptyStore emptyRecord.effective = Except.ok () →
      totalBits emptyRecord ≤ 64 →
      validate_and_install DeviceMode.Operational emptyStore initTable 1
        emptyRecord = Except.error ErrorKind.Busy) ∧
    (∀ ch2, dispatch emptyStore (applyInstall initTable
        (validate_and_install DeviceMode.Operational emptyStore initTable 1
          emptyRecord) ch2) =
      dispatch emptyStore (initTable ch2)) :=
  busy_gate_nonpreop DeviceMode.Operational emptyStore initTable 1 emptyRecord
    (by decide)

/-- C7 (amended): in PreOperational mode — the only mode in which mapping
writes are allowed — re-installing the currently active, already valid
record of a channel succeeds, returns the unchanged table, and leaves the
dispatch output of every channel unchanged. -/
theorem reinstall_idempotent (s : EntryStore) (t : MappingTable) (ch : Nat)
    (hcount : (t ch).mapped_count ≤ 8)
    (hobjs : checkObjects s (t ch).effective = Except.ok ())
    (hsum : totalBits (t ch) ≤ 64) :
    validate_and_install DeviceMode.PreOperational s t ch (t ch) =
      Except.ok t ∧
    ∀ ch2, dispatch s (applyInstall t (validate_and_install
        DeviceMode.PreOperational s t ch (t ch)) ch2) =
      dispatch s (t ch2) := by
  have h4 : ¬ 8 < (t ch).mapped_count := Nat.not_lt.mpr hcount
  have h5 : ¬ 64 < totalBits (t ch) := Nat.not_lt.mpr hsum
  have ht : (fun ch2 => if ch2 = ch then t ch else t ch2) = t := by
    funext ch2
    by_cases hc : ch2 = ch
    · subst hc; rw [if_pos rfl]
    · rw [if_neg hc]
  have hmain : validate_and_install DeviceMode.PreOperational s t ch (t ch) =
      Except.ok t := by
    unfold validate_and_install
    rw [if_neg h4, hobjs, if_neg h5, if_pos rfl, ht]
  refine ⟨hmain, fun ch2 => ?_⟩
  rw [hmain]
  rfl

/-- C7 counterexample: the active record of channel 1 of the initial table
is valid (passes all structural checks), yet in Operational mode
re-installing it does not succeed — it is rejected with `Busy`. -/
theorem reinstall_not_universal :
    (initTable 1).mapped_count ≤ 8 ∧
    checkObjects emptyStore (initTable 1).effective = Except.ok () ∧
    totalBits (initTable 1) ≤ 64 ∧
    validate_and_install DeviceMode.Operational emptyStore initTable 1
      (initTable 1) = Except.error ErrorKind.Busy ∧
    ∀ t2, validate_and_install DeviceMode.Operational emptyStore initTable 1
      (initTable 1) ≠ Except.ok t2 := by
  refine ⟨by decide, rfl, by decide, rfl, fun t2 h => ?_⟩
  have h2 : (Except.error ErrorKind.Busy : Except ErrorKind MappingTable) =
      Except.ok t2 := h
  simp at h2

/-- C7 witness: re-installing the valid active record of channel 1 of the
initial table in PreOperational mode succeeds and leaves dispatch output
unchanged. -/
theorem reinstall_idempotent_witness :
    validate_and_install DeviceMode.PreOperational emptyStore initTable 1
      (initTable 1) = Except.ok initTable ∧
    ∀ ch2, dispatch emptyStore (applyInstall initTable (validate_and_install
        DeviceMode.PreOperational emptyStore initTable 1 (initTable 1)) ch2) =
      dispatch emptyStore (initTable ch2) :=
  reinstall_idempotent emptyStore initTable 1 (by decide) (by rfl) (by decide)

/-- C8 (amended): in PreOperational mode — the only mode in which mapping
writes are allowed — every candidate with `mapped_count = 0` is accepted by
`validate_and_install` for every channel and every store state, and the
empty candidate becomes the channel's record. -/
theorem empty_mapping_valid_preop (s : EntryStore) (t : MappingTable)
    (ch : Nat) (cand : MappingRecord) (h : cand.mapped_count = 0) :
    validate_and_install DeviceMode.PreOperational s t ch cand =
      Except.ok (fun ch2 => if ch2 = ch then cand else t ch2) := by
  have h1 : cand.effective = [] := by
    simp [MappingRecord.effective, h]
  unfold validate_and_install
  rw [h]
  rw [if_neg (by omega : ¬ 8 < 0)]
  rw [h1]
  have h2 : totalBits cand = 0 := by
    simp [totalBits, h1]
  rw [checkObjects, h2]
  rw [if_neg (by omega : ¬ 64 < 0), if_pos rfl]

/-- C8 counterexample: the empty candidate has `mapped_count = 0`, yet in
Operational mode `validate_and_install` does not succeed — it is rejected
with `Busy`. -/
theorem empty_mapping_not_always :
    emptyRecord.mapped_count = 0 ∧
    validate_and_install DeviceMode.Operational emptyStore initTable 1
      emptyRecord = Except.error ErrorKind.Busy ∧
    ∀ t2, validate_and_install DeviceMode.Operational emptyStore initTable 1
      emptyRecord ≠ Except.ok t2 := by
  refine ⟨rfl, rfl, fun t2 h => ?_⟩
  have h2 : (Except.error ErrorKind.Busy : Except ErrorKind MappingTable) =
      Except.ok t2 := h
  simp at h2

/-- C8 witness: the empty candidate installed on channel 2 of the initial
table in PreOperational mode succeeds. -/
theorem empty_mapping_valid_preop_witness :
    validate_and_install DeviceMode.PreOperational emptyStore initTable 2
      emptyRecord =
      Except.ok (fun ch2 => if ch2 = 2 then emptyRecord else initTable ch2) :=
  empty_mapping_valid_preop emptyStore initTable 2 emptyRecord (by rfl)

/-- C5: for the scenario mapping of channel 1 — (0x6000, 1) over 8 bits
then (0x6000, 2) over 16 bits — dispatch reads the entries in mapping
order and packs them little-endian with the bit offset accumulating
left-to-right: the assembled payload is exactly 3 bytes, entry 1's byte
first, entry 2's two bytes following little-endian. -/
theorem dispatch_scenario_le (a b0 b1 : Nat) (ha : a < 256) (hb0 : b0 < 256)
    (hb1 : b1 < 256) :
    dispatch (scenarioStore a b0 b1) scenarioRecord = some [a, b0, b1] ∧
    ∀ bytes, dispatch (scenarioStore a b0 b1) scenarioRecord = some bytes →
      bytes.length = 3 := by
  have e1 : leDecode [a] = a := by
    simp [leDecode]
    omega
  have e2 : leDecode [b0, b1] = b0 + 256 * b1 := by
    simp [leDecode]
    omega
  have e3 : readFields (scenarioStore a b0 b1) scenarioRecord.effective =
      some [(a, 8), (b0 + 256 * b1, 16)] := by
    simp [readFields, scenarioRecord, MappingRecord.effective, scenarioStore,
      entry6000sub1, entry6000sub2, e1, e2]
    omega
  have e5 : packValue [(a, 8), (b0 + 256 * b1, 16)] = a + 256 * b0 + 65536 * b1 := by
    simp [packValue]
    omega
  have e6 : natToBytes 3 (a + 256 * b0 + 65536 * b1) = [a, b0, b1] := by
    simp [natToBytes]
    omega
  have e4 : dispatch (scenarioStore a b0 b1) scenarioRecord = some [a, b0, b1] := by
    simp [dispatch, e3, bitsTotal, e5, e6]
  refine ⟨e4, fun bytes hb => ?_⟩
  rw [e4] at hb
  injection hb with hb2
  rw [← hb2]
  rfl

/-- C5 witness: with entry values 5 and little-endian bytes 2, 3 (the value
770), the assembled payload is the 3 bytes 5, 2, 3. -/
theorem dispatch_scenario_le_witness :
    dispatch (scenarioStore 5 2 3) scenarioRecord = some [5, 2, 3] ∧
    ∀ bytes, dispatch (scenarioStore 5 2 3) scenarioRecord = some bytes →
      bytes.length = 3 :=
  dispatch_scenario_le 5 2 3 (by decide) (by decide) (by decide)

/-- C9: on restart the store is the defaults overlaid by the persisted
tuples in sequence order: restarting with no persisted tuples yields
exactly the default-initialized store; the head tuple is applied before the
rest of the sequence; a tuple whose key matches no existing entry is
ignored without error; and a tuple matching an existing entry overwrites
exactly that entry's value with the raw bytes, leaving every other key
unchanged. -/
theorem restart_overlay :
    (∀ defs : List ((Nat × Nat) × Entry), restart defs [] = initStore defs) ∧
    (∀ (s : EntryStore) (i sub : Nat) (raw : List Nat)
      (rest : List (Nat × Nat × List Nat)),
      restore s ((i, sub, raw) :: rest) = restore (applyTuple s i sub raw) rest) ∧
    (∀ (s : EntryStore) (i sub : Nat) (raw : List Nat),
      s i sub = none → applyTuple s i sub raw = s) ∧
    (∀ (s : EntryStore) (i sub : Nat) (raw : List Nat) (e : Entry),
      s i sub = some e →
      applyTuple s i sub raw i sub = some { e with value := raw } ∧
      ∀ i2 sub2, ¬ (i2 = i ∧ sub2 = sub) →
        applyTuple s i sub raw i2 sub2 = s i2 sub2) := by
  refine ⟨fun defs => rfl, fun s i sub raw rest => rfl, ?_, ?_⟩
  · intro s i sub raw h
    simp [applyTuple, h]
  · intro s i sub raw e h
    constructor
    · simp [applyTuple, h, updateStore]
    · intro i2 sub2 h2
      simp [applyTuple, h, updateStore, h2]

/-- C9 witness: overlaying a persisted tuple for the unknown key (0x9999, 0)
onto the empty store is ignored and leaves the store unchanged. -/
theorem restart_overlay_witness :
    applyTuple emptyStore 0x9999 0 [1] = emptyStore :=
  restart_overlay.2.2.1 emptyStore 0x9999 0 [1] (by rfl)

end CANopenOD
